import Mathlib

/-!
Verification of `src/experiment_summary.py`: a sequential pipeline that
searches the NCBI Entrez service, extracts fields from nested JSON
summaries, and writes CSV tables.  The HTTP transport (`requests.get`)
and the XML-to-dict library (`xmltodict.parse`) are external
collaborators and are modelled as explicit parameters; everything else
is translated function-by-function from the Python source.  Python
exceptions (KeyError / TypeError) are rendered as `Except.error`, and
the in-place dict mutation performed by `parse_sra_summary` is rendered
as explicit state passing (the function returns the updated map).
-/

set_option autoImplicit false

namespace ExperimentSummary

/-- JSON-like values as delivered by the Entrez endpoints: strings,
arrays and objects (Python dicts, kept as ordered association lists). -/
inductive JsonV where
  | str : String → JsonV
  | arr : List JsonV → JsonV
  | obj : List (String × JsonV) → JsonV

/-- Python `d[k]` on a dict: value on success, KeyError when the key is
absent, TypeError when the value is not a dict at all. -/
def jget (v : JsonV) (k : String) : Except String JsonV :=
  match v with
  | .obj fields =>
    match fields.lookup k with
    | some x => Except.ok x
    | none => Except.error ("KeyError: " ++ k)
  | _ => Except.error ("TypeError: " ++ k)

/-- Coerce a JSON value to a string (the embedding's rendering of a
Python value being used where a `str` is required). -/
def asStr : JsonV → Except String String
  | .str s => Except.ok s
  | _ => Except.error "TypeError: expected str"

/-- Coerce a JSON value to a list of values. -/
def asArr : JsonV → Except String (List JsonV)
  | .arr xs => Except.ok xs
  | _ => Except.error "TypeError: expected list"

/-- Coerce a JSON value to a list of strings (identifier lists). -/
def asStrList (v : JsonV) : Except String (List String) := do
  let xs ← asArr v
  xs.mapM asStr

/-- An HTTP response: `ok` is `response.ok` (success status), `body` is
the parsed JSON body (`response.json()`). -/
structure Response where
  ok : Bool
  body : JsonV

/-- The remote Entrez service, abstracted over the HTTP transport.
`search db term` answers the esearch URL built from `db` and `term`;
`summary db ids` answers the esummary URL built from `db` and the
comma-joined identifier string `ids`. -/
structure Net where
  search : String → String → Response
  summary : String → String → Response

def GSE_DB_NAME : String := "gds"

def SRA_DB_NAME : String := "sra"

/-- `entrez_search` from the source: on a successful response return
`response.json()['esearchresult']['idlist']`, otherwise `[]`. -/
def entrez_search (net : Net) (db_name : String) (term : String) :
    Except String (List String) :=
  let response := net.search db_name term
  if response.ok then do
    let es ← jget response.body "esearchresult"
    let idl ← jget es "idlist"
    asStrList idl
  else
    Except.ok []

/-- `entrez_summary` from the source: on a successful response return
`response.json()['result']`, otherwise the empty mapping `{}`. -/
def entrez_summary (net : Net) (db_name : String) (ids : List String) :
    Except String JsonV :=
  let response := net.summary db_name (String.intercalate "," ids)
  if response.ok then
    jget response.body "result"
  else
    Except.ok (.obj [])

/-- `sum_GSE` from the source: search the `gds` namespace with the
`gse[ETYP]` filter suffix, then summarize the identifiers found. -/
def sum_GSE (net : Net) (gse_id : String) : Except String JsonV := do
  let query := gse_id ++ "+AND+gse[ETYP]"
  let ids ← entrez_search net GSE_DB_NAME query
  entrez_summary net GSE_DB_NAME ids

/-- One row of the primary (microarray) table, as built by the body of
the `for uid in gse_summray['uids']` loop in `parse_gse_summary`. -/
def gseRow (gse_summray : JsonV) (uid : String) :
    Except String (List (String × JsonV)) := do
  let r ← jget gse_summray uid
  let gpl ← jget r "gpl"
  let suppfile ← jget r "suppfile"
  let ftplink ← jget r "ftplink"
  Except.ok [("uid", JsonV.str uid), ("gpl", gpl),
    ("suppfile", suppfile), ("ftplink", ftplink)]

/-- The `parsed` list accumulated by the loop in `parse_gse_summary`. -/
def gseRows (gse_summray : JsonV) : List String →
    Except String (List (List (String × JsonV)))
  | [] => Except.ok []
  | uid :: rest => do
    let row ← gseRow gse_summray uid
    let rows ← gseRows gse_summray rest
    Except.ok (row :: rows)

/-- A pandas DataFrame built from a list of row dicts: the rows, in
order, each an ordered association list of column name to value. -/
structure DataFrame where
  rows : List (List (String × JsonV))

/-- `parse_gse_summary` from the source: one row per entry of
`gse_summray['uids']`, each with the four fields uid, gpl, suppfile,
ftplink. -/
def parse_gse_summary (gse_summray : JsonV) : Except String DataFrame := do
  let uidList ← asStrList (← jget gse_summray "uids")
  let parsed ← gseRows gse_summray uidList
  Except.ok ⟨parsed⟩

/-- The truth value of Python's `relation['relationtype'] == 'SRA'`:
true exactly when the value is the string `"SRA"`. -/
def isSRA : JsonV → Bool
  | .str s => s == "SRA"
  | _ => false

/-- The `extrelations` accumulator of `find_relevant_srp`: the
concatenation of `gse_summary[uid]['extrelations']` over the uids, in
uid order. -/
def collectExtrelations (gse_summary : JsonV) :
    List String → Except String (List JsonV)
  | [] => Except.ok []
  | uid :: rest => do
    let r ← jget gse_summary uid
    let rels ← asArr (← jget r "extrelations")
    let more ← collectExtrelations gse_summary rest
    Except.ok (rels ++ more)

/-- The list comprehension of `find_relevant_srp`: target objects of the
relations whose `relationtype` is `'SRA'`, in relation order. -/
def srpOfRelations : List JsonV → Except String (List String)
  | [] => Except.ok []
  | relation :: rest => do
    let t ← jget relation "relationtype"
    if isSRA t then do
      let tgt ← asStr (← jget relation "targetobject")
      let more ← srpOfRelations rest
      Except.ok (tgt :: more)
    else
      srpOfRelations rest

/-- `find_relevant_srp` from the source. -/
def find_relevant_srp (gse_summary : JsonV) : Except String (List String) := do
  let uidList ← asStrList (← jget gse_summary "uids")
  let extrelations ← collectExtrelations gse_summary uidList
  srpOfRelations extrelations

/-- Python dict assignment `d[k] = v` on an association list: replace in
place when the key exists (keeping its position), append otherwise. -/
def setKey : List (String × JsonV) → String → JsonV → List (String × JsonV)
  | [], k, v => [(k, v)]
  | (k1, v1) :: rest, k, v =>
    if k1 = k then (k, v) :: rest else (k1, v1) :: setKey rest k v

/-- Dict assignment lifted to JSON values (no-op on non-objects; every
use site has already observed the value to be an object via `jget`). -/
def jset (v : JsonV) (k : String) (x : JsonV) : JsonV :=
  match v with
  | .obj fields => .obj (setKey fields k x)
  | other => other

/-- The sixteen nested lookups of the loop body of `parse_sra_summary`,
performed on the two parsed trees (`expxml` after wrapping and parsing,
`runs` after parsing), in source order. -/
def sraRow (uid : String) (expxml runs : JsonV) :
    Except String (List (String × JsonV)) := do
  let run_id ← jget (← jget runs "Run") "@acc"
  let total_spots ← jget (← jget (← jget expxml "Summary") "Statistics") "@total_spots"
  let total_bases ← jget (← jget (← jget expxml "Summary") "Statistics") "@total_bases"
  let total_size ← jget (← jget (← jget expxml "Summary") "Statistics") "@total_size"
  let experiment ← jget (← jget expxml "Experiment") "@acc"
  let platform ← jget (← jget (← jget expxml "Summary") "Platform") "#text"
  let model ← jget (← jget (← jget expxml "Summary") "Platform") "@instrument_model"
  let tax_id ← jget (← jget expxml "Organism") "@taxid"
  let sample ← jget (← jget expxml "Sample") "@acc"
  let library_strategy ← jget (← jget expxml "Library_descriptor") "LIBRARY_STRATEGY"
  let library_selection ← jget (← jget expxml "Library_descriptor") "LIBRARY_SELECTION"
  let library_source ← jget (← jget expxml "Library_descriptor") "LIBRARY_SOURCE"
  let bio_project ← jget expxml "Bioproject"
  let bio_sample ← jget expxml "Biosample"
  let sra_study ← jget (← jget expxml "Study") "@acc"
  let sra_id ← jget (← jget expxml "Submitter") "@acc"
  Except.ok [("uid", JsonV.str uid), ("run_id", run_id),
    ("total_spots", total_spots), ("total_bases", total_bases),
    ("total_size", total_size), ("experiment", experiment),
    ("platform", platform), ("model", model), ("tax_id", tax_id),
    ("sample", sample), ("library_strategy", library_strategy),
    ("library_selection", library_selection),
    ("library_source", library_source), ("bio_project", bio_project),
    ("bio_sample", bio_sample), ("sra_study", sra_study),
    ("sra_id", sra_id)]

/-- The loop of `parse_sra_summary`.  Per uid the source overwrites
`sra_summary[uid]['expxml']` with `xmltodict.parse('<root>' + … +
'</root>')['root']` and `sra_summary[uid]['runs']` with
`xmltodict.parse(…)`, then reads the sixteen fields back out of the two
freshly assigned trees.  The Python in-place mutation is rendered as
state passing: the updated map is threaded through and returned. -/
def sraGo (xparse : String → Except String JsonV) (m : JsonV) :
    List String → Except String (JsonV × List (List (String × JsonV)))
  | [] => Except.ok (m, [])
  | uid :: rest => do
    let r ← jget m uid
    let expxml ← jget
      (← xparse ("<root>" ++ (← asStr (← jget r "expxml")) ++ "</root>"))
      "root"
    let runs ← xparse (← asStr (← jget (jset r "expxml" expxml) "runs"))
    let row ← sraRow uid expxml runs
    let res ← sraGo xparse
      (jset m uid (jset (jset r "expxml" expxml) "runs" runs)) rest
    Except.ok (res.1, row :: res.2)

/-- `parse_sra_summary` from the source, abstracted over the external
XML parser `xmltodict.parse` (`xparse`).  Returns the mutated summary
map together with the DataFrame the Python function returns. -/
def parse_sra_summary (xparse : String → Except String JsonV)
    (sra_summary : JsonV) : Except String (JsonV × DataFrame) := do
  let uidList ← asStrList (← jget sra_summary "uids")
  let res ← sraGo xparse sra_summary uidList
  Except.ok (res.1, ⟨res.2⟩)

/-- A value of the composite output dict of `experiment_summary`:
either the experiment identifier string or a DataFrame. -/
inductive OutVal where
  | s : String → OutVal
  | df : DataFrame → OutVal

/-- `experiment_summary` from the source: build the output dict with
`gse_id`, add `microarray`, and add `rnaseq` only when
`find_relevant_srp` returned a non-empty list. -/
def experiment_summary (net : Net) (xparse : String → Except String JsonV)
    (gse_id : String) : Except String (List (String × OutVal)) := do
  let gse_summary ← sum_GSE net gse_id
  let microarray ← parse_gse_summary gse_summary
  let output := [("gse_id", OutVal.s gse_id), ("microarray", OutVal.df microarray)]
  let relevant_srp_ids ← find_relevant_srp gse_summary
  if relevant_srp_ids.isEmpty then
    Except.ok output
  else do
    let sra_ids ← entrez_search net SRA_DB_NAME
      (String.intercalate "+OR+" relevant_srp_ids)
    let sra_sum ← entrez_summary net SRA_DB_NAME sra_ids
    let res ← parse_sra_summary xparse sra_sum
    Except.ok (output ++ [("rnaseq", OutVal.df res.2)])

/-- First-seen-order deduplication, with the keys already seen as
accumulator. -/
def dedupSeen : List String → List String → List String
  | _, [] => []
  | seen, c :: rest =>
    if c ∈ seen then dedupSeen seen rest
    else c :: dedupSeen (c :: seen) rest

/-- The columns of a pandas DataFrame built from a list of row dicts:
the union of the rows' keys in first-seen order. -/
def DataFrame.columns (df : DataFrame) : List String :=
  dedupSeen [] ((df.rows.map (fun r => r.map Prod.fst)).flatten)

/-- One cell of a written CSV file: the blank header cell above the
index column, an integer index value, a data value, or the NaN a row
missing a column receives. -/
inductive Cell where
  | blank : Cell
  | nat : Nat → Cell
  | val : JsonV → Cell
  | nan : Cell

/-- Modelled from the spec: the CSV output of pandas
`DataFrame.to_csv(path)` — the spec fixes no customization ("defaults
assumed"), and the pandas defaults (`index=True`, `header=True`) write
a header row with an empty cell over the index column followed by the
column names, then one row per record carrying the integer row index
before the column values. -/
def to_csv (df : DataFrame) : List (List Cell) :=
  let cols := df.columns
  let header := Cell.blank :: cols.map (fun c => Cell.val (JsonV.str c))
  let body := df.rows.enum.map (fun p =>
    Cell.nat p.1 :: cols.map (fun c =>
      match p.2.lookup c with
      | some v => Cell.val v
      | none => Cell.nan))
  header :: body

/-- `MICROARRAY_PATH.format(gse_id=…)` from the source. -/
def MICROARRAY_PATH (gse_id : String) : String :=
  "results/microarray/" ++ gse_id ++ "_experiment_summary.csv"

/-- `RNASEQ_PATH.format(gse_id=…)` from the source. -/
def RNASEQ_PATH (gse_id : String) : String :=
  "results/rnaseq/" ++ gse_id ++ "_rnaseq.csv"

/-- Python `d[k]` on the composite output dict. -/
def getOut (es : List (String × OutVal)) (k : String) : Except String OutVal :=
  match es.lookup k with
  | some v => Except.ok v
  | none => Except.error ("KeyError: " ++ k)

/-- Expect the identifier string of the composite output. -/
def asOutStr : OutVal → Except String String
  | .s s => Except.ok s
  | _ => Except.error "TypeError: expected str"

/-- Expect a DataFrame entry of the composite output. -/
def asOutDf : OutVal → Except String DataFrame
  | .df d => Except.ok d
  | _ => Except.error "TypeError: expected DataFrame"

/-- `save_to_csv` from the source, with the file-system writes rendered
as the returned list of (path, CSV content) pairs: always the
microarray table, plus the rnaseq table when the key is present. -/
def save_to_csv (experiment_summary : List (String × OutVal)) :
    Except String (List (String × List (List Cell))) := do
  let micro ← asOutDf (← getOut experiment_summary "microarray")
  let gid ← asOutStr (← getOut experiment_summary "gse_id")
  let first := (MICROARRAY_PATH gid, to_csv micro)
  match experiment_summary.lookup "rnaseq" with
  | some v => do
    let rna ← asOutDf v
    Except.ok [first, (RNASEQ_PATH gid, to_csv rna)]
  | none => Except.ok [first]

/-! ## Statement-side helpers and concrete fixtures -/

/-- Did the computation succeed (Python: no exception was raised)? -/
def isOk {α : Type} : Except String α → Bool
  | .ok _ => true
  | .error _ => false

/-- Total lookup used only for stating theorems: the value under `k`,
or a junk default where `jget` would raise (the hypotheses of every
theorem using it rule the default out). -/
def getD (v : JsonV) (k : String) : JsonV :=
  match jget v k with
  | .ok x => x
  | .error _ => JsonV.str ""

/-- The row `parse_gse_summary` builds for `uid`, written with total
lookups (statement-side form of `gseRow`). -/
def gseRowD (m : JsonV) (uid : String) : List (String × JsonV) :=
  [("uid", JsonV.str uid), ("gpl", getD (getD m uid) "gpl"),
   ("suppfile", getD (getD m uid) "suppfile"),
   ("ftplink", getD (getD m uid) "ftplink")]

/-- Statement-side form of one identifier's external-relations list. -/
def getRelations (m : JsonV) (uid : String) : List JsonV :=
  match asArr (getD (getD m uid) "extrelations") with
  | .ok xs => xs
  | .error _ => []

/-- Statement-side form of a relation's target-object identifier. -/
def targetOf (rel : JsonV) : String :=
  match asStr (getD rel "targetobject") with
  | .ok s => s
  | .error _ => ""

/-- A network whose every response has a non-success HTTP status. -/
def failNet : Net where
  search := fun _ _ => ⟨false, .obj []⟩
  summary := fun _ _ => ⟨false, .obj []⟩

/-- A concrete primary summary map with two identifiers (the spec's
round-trip scenario). -/
def mC3 : JsonV := .obj [
  ("uids", .arr [.str "u1", .str "u2"]),
  ("u1", .obj [("gpl", .str "GPL1"), ("suppfile", .str "S1"),
    ("ftplink", .str "F1")]),
  ("u2", .obj [("gpl", .str "GPL2"), ("suppfile", .str "S2"),
    ("ftplink", .str "F2")])]

/-- A concrete primary summary map carrying one SRA relation and one
non-SRA relation (the spec's filtering scenario). -/
def mC2 : JsonV := .obj [
  ("uids", .arr [.str "u1"]),
  ("u1", .obj [("extrelations", .arr [
    .obj [("relationtype", .str "SRA"), ("targetobject", .str "SRP1")],
    .obj [("relationtype", .str "Other"), ("targetobject", .str "X")]])])]

/-- An XML parser that is never consulted (for runs that never reach
the sequencing branch). -/
def xparseNone : String → Except String JsonV :=
  fun _ => Except.error "xml parse failure"

/-- A network whose searches succeed but whose batch summary requests
all fail: the transport-failure scenario of C1. -/
def sumFailNet : Net where
  search := fun _ _ =>
    ⟨true, .obj [("esearchresult", .obj [("idlist", .arr [.str "1"])])]⟩
  summary := fun _ _ => ⟨false, .obj []⟩

/-- A fully successful network for one experiment with no SRA-typed
relations: search finds identifier `1`, the summary carries the three
primary sub-fields and an empty external-relations list. -/
def okNet : Net where
  search := fun _ _ =>
    ⟨true, .obj [("esearchresult", .obj [("idlist", .arr [.str "1"])])]⟩
  summary := fun _ _ =>
    ⟨true, .obj [("result", .obj [
      ("uids", .arr [.str "1"]),
      ("1", .obj [("gpl", .str "GPL1"), ("suppfile", .str "S1"),
        ("ftplink", .str "F1"), ("extrelations", .arr [])])])]⟩

/-- Walk a chain of nested keys with `jget` (statement-side form of
one of the nested-path accesses of `parse_sra_summary`). -/
def jpath (v : JsonV) : List String → Except String JsonV
  | [] => Except.ok v
  | k :: ks =>
    match jget v k with
    | .ok x => jpath x ks
    | .error e => Except.error e

/-- All sixteen nested paths that `parse_sra_summary` reads are present
in the two parsed trees (`expxml` and `runs`). -/
def sraPathsOk (expxml runs : JsonV) : Bool :=
  isOk (jpath runs ["Run", "@acc"]) &&
  isOk (jpath expxml ["Summary", "Statistics", "@total_spots"]) &&
  isOk (jpath expxml ["Summary", "Statistics", "@total_bases"]) &&
  isOk (jpath expxml ["Summary", "Statistics", "@total_size"]) &&
  isOk (jpath expxml ["Experiment", "@acc"]) &&
  isOk (jpath expxml ["Summary", "Platform", "#text"]) &&
  isOk (jpath expxml ["Summary", "Platform", "@instrument_model"]) &&
  isOk (jpath expxml ["Organism", "@taxid"]) &&
  isOk (jpath expxml ["Sample", "@acc"]) &&
  isOk (jpath expxml ["Library_descriptor", "LIBRARY_STRATEGY"]) &&
  isOk (jpath expxml ["Library_descriptor", "LIBRARY_SELECTION"]) &&
  isOk (jpath expxml ["Library_descriptor", "LIBRARY_SOURCE"]) &&
  isOk (jpath expxml ["Bioproject"]) &&
  isOk (jpath expxml ["Biosample"]) &&
  isOk (jpath expxml ["Study", "@acc"]) &&
  isOk (jpath expxml ["Submitter", "@acc"])

/-- The composite result `experiment_summary` produces on `okNet` for
the identifier `GSE1`. -/
def outOk : List (String × OutVal) :=
  [("gse_id", OutVal.s "GSE1"),
   ("microarray", OutVal.df ⟨[[("uid", JsonV.str "1"),
     ("gpl", JsonV.str "GPL1"), ("suppfile", JsonV.str "S1"),
     ("ftplink", JsonV.str "F1")]]⟩)]

/-- A primary summary map whose record lacks the required `gpl`
sub-field. -/
def mC7gse : JsonV := .obj [
  ("uids", .arr [.str "u1"]),
  ("u1", .obj [("suppfile", .str "S"), ("ftplink", .str "F")])]

/-- A sequencing summary map with one identifier whose embedded XML
fields are the strings `E` and `R`. -/
def mC7sra : JsonV := .obj [
  ("uids", .arr [.str "u1"]),
  ("u1", .obj [("expxml", .str "E"), ("runs", .str "R")])]

/-- An XML parser that parses the two fixture fragments to empty trees
(in which every required nested path is absent). -/
def xpEmpty : String → Except String JsonV := fun s =>
  if s = "<root>E</root>" then Except.ok (.obj [("root", .obj [])])
  else if s = "R" then Except.ok (.obj [])
  else Except.error "xml parse failure"

/-- A fully populated parsed `expxml` tree carrying all sixteen
required nested values. -/
def expxmlTree : JsonV := .obj [
  ("Summary", .obj [
    ("Statistics", .obj [("@total_spots", .str "10"),
      ("@total_bases", .str "20"), ("@total_size", .str "30")]),
    ("Platform", .obj [("#text", .str "ILLUMINA"),
      ("@instrument_model", .str "HiSeq")])]),
  ("Experiment", .obj [("@acc", .str "SRX1")]),
  ("Organism", .obj [("@taxid", .str "9606")]),
  ("Sample", .obj [("@acc", .str "SRS1")]),
  ("Library_descriptor", .obj [("LIBRARY_STRATEGY", .str "RNA-Seq"),
    ("LIBRARY_SELECTION", .str "cDNA"),
    ("LIBRARY_SOURCE", .str "TRANSCRIPTOMIC")]),
  ("Bioproject", .str "PRJ1"), ("Biosample", .str "SAMN1"),
  ("Study", .obj [("@acc", .str "SRP1")]),
  ("Submitter", .obj [("@acc", .str "SRA1")])]

/-- A parsed runs tree with the run accession. -/
def runsTree : JsonV := .obj [("Run", .obj [("@acc", .str "SRR1")])]

/-- An XML parser taking the two fixture fragments to the fully
populated trees. -/
def xpFull : String → Except String JsonV := fun s =>
  if s = "<root>E</root>" then Except.ok (.obj [("root", expxmlTree)])
  else if s = "R" then Except.ok runsTree
  else Except.error "xml parse failure"

/-- The map `parse_sra_summary xpFull` returns for `mC7sra`: the
string entries replaced by the parsed trees. -/
def mC9out : JsonV := .obj [
  ("uids", .arr [.str "u1"]),
  ("u1", .obj [("expxml", expxmlTree), ("runs", runsTree)])]

/-- The four columns of the primary table as enumerated in the data
model. -/
def gseCols : List String := ["uid", "gpl", "suppfile", "ftplink"]

/-- A one-row primary DataFrame. -/
def dfC8 : DataFrame :=
  ⟨[[("uid", .str "1"), ("gpl", .str "G"), ("suppfile", .str "S"),
    ("ftplink", .str "F")]]⟩

/-- A composite result holding `dfC8` and no sequencing table. -/
def esC8 : List (String × OutVal) :=
  [("gse_id", OutVal.s "G1"), ("microarray", OutVal.df dfC8)]

/-- The seventeen columns of the sequencing table as enumerated in the
data model: uid plus the sixteen sequencing fields. -/
def sraCols : List String :=
  ["uid", "run_id", "total_spots", "total_bases", "total_size",
   "experiment", "platform", "model", "tax_id", "sample",
   "library_strategy", "library_selection", "library_source",
   "bio_project", "bio_sample", "sra_study", "sra_id"]

/-- Statement-side shape of the CSV pandas writes for a table whose
rows all carry the columns `cols`: for an empty table just the blank
header cell of the index column (no data columns, no rows), otherwise
a header row (blank index cell, then the column names) followed by one
row per record carrying its integer index before the values. -/
def csvSpec (cols : List String) (d : DataFrame) : List (List Cell) :=
  if d.rows.isEmpty then [[Cell.blank]]
  else (Cell.blank :: cols.map (fun c => Cell.val (JsonV.str c))) ::
    d.rows.enum.map (fun p =>
      Cell.nat p.1 :: p.2.map (fun q => Cell.val q.2))

/-- Statement-side total lookup of a table entry of a composite
result. -/
def dfAt (out : List (String × OutVal)) (k : String) : DataFrame :=
  match out.lookup k with
  | some (OutVal.df d) => d
  | _ => ⟨[]⟩

/-- A fully successful network whose experiment has one SRA-typed
relation: the `gds` summary carries the primary record, the `sra`
summary carries one sequencing record with the fixture XML strings. -/
def sraNet : Net where
  search := fun _ _ =>
    ⟨true, .obj [("esearchresult", .obj [("idlist", .arr [.str "1"])])]⟩
  summary := fun db _ =>
    if db = GSE_DB_NAME then
      ⟨true, .obj [("result", .obj [
        ("uids", .arr [.str "1"]),
        ("1", .obj [("gpl", .str "GPL1"), ("suppfile", .str "S1"),
          ("ftplink", .str "F1"),
          ("extrelations", .arr [.obj [("relationtype", .str "SRA"),
            ("targetobject", .str "SRP1")]])])])]⟩
    else
      ⟨true, .obj [("result", .obj [
        ("uids", .arr [.str "u1"]),
        ("u1", .obj [("expxml", .str "E"), ("runs", .str "R")])])]⟩

/-- The sequencing table `parse_sra_summary xpFull` extracts from the
`sraNet` summary. -/
def dfSraOut : DataFrame :=
  ⟨[[("uid", .str "u1"), ("run_id", .str "SRR1"),
    ("total_spots", .str "10"), ("total_bases", .str "20"),
    ("total_size", .str "30"), ("experiment", .str "SRX1"),
    ("platform", .str "ILLUMINA"), ("model", .str "HiSeq"),
    ("tax_id", .str "9606"), ("sample", .str "SRS1"),
    ("library_strategy", .str "RNA-Seq"),
    ("library_selection", .str "cDNA"),
    ("library_source", .str "TRANSCRIPTOMIC"),
    ("bio_project", .str "PRJ1"), ("bio_sample", .str "SAMN1"),
    ("sra_study", .str "SRP1"), ("sra_id", .str "SRA1")]]⟩

/-- The composite result `experiment_summary` produces on `sraNet`
with `xpFull` for the identifier `GSE1`. -/
def outSra : List (String × OutVal) :=
  [("gse_id", OutVal.s "GSE1"),
   ("microarray", OutVal.df ⟨[[("uid", .str "1"), ("gpl", .str "GPL1"),
     ("suppfile", .str "S1"), ("ftplink", .str "F1")]]⟩),
   ("rnaseq", OutVal.df dfSraOut)]

/-! ## Theorems -/

@[simp] theorem ok_bind {α β : Type} (a : α) (f : α → Except String β) :
    (Except.ok a >>= f) = f a := rfl

@[simp] theorem error_bind {α β : Type} (e : String) (f : α → Except String β) :
    ((Except.error e : Except String α) >>= f) = Except.error e := rfl

@[simp] theorem isOk_ok {α : Type} (a : α) :
    isOk (Except.ok a) = true := rfl

@[simp] theorem isOk_error {α : Type} (e : String) :
    isOk (Except.error e : Except String α) = false := rfl

theorem bind_ok {α β : Type} {x : Except String α}
    {f : α → Except String β} {b : β} (h : (x >>= f) = Except.ok b) :
    ∃ a, x = Except.ok a ∧ f a = Except.ok b := by
  cases x with
  | ok a => exact ⟨a, rfl, h⟩
  | error e => simp at h

theorem jget_ok_obj {m : JsonV} {k : String} {x : JsonV}
    (h : jget m k = Except.ok x) : ∃ fs, m = JsonV.obj fs := by
  cases m with
  | obj fs => exact ⟨fs, rfl⟩
  | str s => simp [jget] at h
  | arr xs => simp [jget] at h

theorem lookup_setKey_self (l : List (String × JsonV)) (k : String)
    (v : JsonV) : (setKey l k v).lookup k = some v := by
  induction l with
  | nil => simp [setKey, List.lookup]
  | cons p rest ih =>
    obtain ⟨k1, v1⟩ := p
    by_cases hk : k1 = k
    · simp [setKey, hk, List.lookup]
    · have hb : (k == k1) = false :=
        beq_eq_false_iff_ne.mpr (fun he => hk he.symm)
      simp [setKey, hk, List.lookup, hb, ih]

theorem lookup_setKey_ne (l : List (String × JsonV)) (k v k2)
    (h : k2 ≠ k) : (setKey l k v).lookup k2 = l.lookup k2 := by
  induction l with
  | nil =>
    have hb : (k2 == k) = false := beq_eq_false_iff_ne.mpr h
    simp [setKey, List.lookup, hb]
  | cons p rest ih =>
    obtain ⟨k1, v1⟩ := p
    by_cases hk : k1 = k
    · subst hk
      have hb : (k2 == k1) = false := beq_eq_false_iff_ne.mpr h
      simp [setKey, List.lookup, hb]
    · by_cases h2 : k2 = k1
      · have hb : (k2 == k1) = true := beq_iff_eq.mpr h2
        simp [setKey, hk, List.lookup, hb]
      · have hb : (k2 == k1) = false := beq_eq_false_iff_ne.mpr h2
        simp [setKey, hk, List.lookup, hb, ih]

theorem jget_jset_self (fs : List (String × JsonV)) (k : String)
    (v : JsonV) : jget (jset (.obj fs) k v) k = Except.ok v := by
  simp [jset, jget, lookup_setKey_self]

theorem jget_jset_ne (fs : List (String × JsonV)) (k v k2)
    (h : k2 ≠ k) : jget (jset (.obj fs) k v) k2 = jget (.obj fs) k2 := by
  simp [jset, jget, lookup_setKey_ne fs k v k2 h]

/-- Keys outside the processed uid list keep their entries across the
`parse_sra_summary` loop. -/
theorem sraGo_untouched (xp : String → Except String JsonV)
    (l : List String) : ∀ (m m2 : JsonV) rows (k : String),
    sraGo xp m l = Except.ok (m2, rows) → k ∉ l → jget m2 k = jget m k := by
  induction l with
  | nil =>
    intro m m2 rows k h _
    unfold sraGo at h
    cases Except.ok.inj h
    rfl
  | cons a rest ih =>
    intro m m2 rows k h hk
    unfold sraGo at h
    obtain ⟨ra, e1, h⟩ := bind_ok h
    obtain ⟨xa, e2, h⟩ := bind_ok h
    obtain ⟨sa, e3, h⟩ := bind_ok h
    obtain ⟨wa, e4, h⟩ := bind_ok h
    obtain ⟨ta, e5, h⟩ := bind_ok h
    obtain ⟨ya, e6, h⟩ := bind_ok h
    obtain ⟨sb, e7, h⟩ := bind_ok h
    obtain ⟨tb, e8, h⟩ := bind_ok h
    obtain ⟨row, e9, h⟩ := bind_ok h
    obtain ⟨res, e10, h⟩ := bind_ok h
    have hm2 : m2 = res.1 := (congrArg Prod.fst (Except.ok.inj h)).symm
    have hka : k ≠ a := fun he => hk (he ▸ List.mem_cons_self a rest)
    have hkr : k ∉ rest := fun he => hk (List.mem_cons_of_mem a he)
    obtain ⟨fs, hfs⟩ := jget_ok_obj e1
    have hstep := ih _ res.1 res.2 k e10 hkr
    rw [hm2, hstep, hfs, jget_jset_ne fs a _ k hka]

/-- A successful sixteen-field row extraction implies that every one of
the sixteen nested paths is present in the two parsed trees. -/
theorem sraRow_ok_paths {uid : String} {t1 t2 : JsonV}
    {row : List (String × JsonV)}
    (h : sraRow uid t1 t2 = Except.ok row) : sraPathsOk t1 t2 = true := by
  unfold sraRow at h
  obtain ⟨a1, f1, h⟩ := bind_ok h
  obtain ⟨a2, f2, h⟩ := bind_ok h
  obtain ⟨a3, f3, h⟩ := bind_ok h
  obtain ⟨a4, f4, h⟩ := bind_ok h
  obtain ⟨a5, f5, h⟩ := bind_ok h
  obtain ⟨a6, f6, h⟩ := bind_ok h
  obtain ⟨a7, f7, h⟩ := bind_ok h
  obtain ⟨a8, f8, h⟩ := bind_ok h
  obtain ⟨a9, f9, h⟩ := bind_ok h
  obtain ⟨a10, f10, h⟩ := bind_ok h
  obtain ⟨a11, f11, h⟩ := bind_ok h
  obtain ⟨a12, f12, h⟩ := bind_ok h
  obtain ⟨a13, f13, h⟩ := bind_ok h
  obtain ⟨a14, f14, h⟩ := bind_ok h
  obtain ⟨a15, f15, h⟩ := bind_ok h
  obtain ⟨a16, f16, h⟩ := bind_ok h
  obtain ⟨a17, f17, h⟩ := bind_ok h
  obtain ⟨a18, f18, h⟩ := bind_ok h
  obtain ⟨a19, f19, h⟩ := bind_ok h
  obtain ⟨a20, f20, h⟩ := bind_ok h
  obtain ⟨a21, f21, h⟩ := bind_ok h
  obtain ⟨a22, f22, h⟩ := bind_ok h
  obtain ⟨a23, f23, h⟩ := bind_ok h
  obtain ⟨a24, f24, h⟩ := bind_ok h
  obtain ⟨a25, f25, h⟩ := bind_ok h
  obtain ⟨a26, f26, h⟩ := bind_ok h
  obtain ⟨a27, f27, h⟩ := bind_ok h
  obtain ⟨a28, f28, h⟩ := bind_ok h
  obtain ⟨a29, f29, h⟩ := bind_ok h
  obtain ⟨a30, f30, h⟩ := bind_ok h
  obtain ⟨a31, f31, h⟩ := bind_ok h
  obtain ⟨a32, f32, h⟩ := bind_ok h
  obtain ⟨a33, f33, h⟩ := bind_ok h
  obtain ⟨a34, f34, h⟩ := bind_ok h
  obtain ⟨a35, f35, h⟩ := bind_ok h
  cases Except.ok.inj (f3.symm.trans f6)
  cases Except.ok.inj (f4.symm.trans f7)
  cases Except.ok.inj (f3.symm.trans f9)
  cases Except.ok.inj (f4.symm.trans f10)
  cases Except.ok.inj (f3.symm.trans f14)
  cases Except.ok.inj (f3.symm.trans f17)
  cases Except.ok.inj (f15.symm.trans f18)
  cases Except.ok.inj (f24.symm.trans f26)
  cases Except.ok.inj (f24.symm.trans f28)
  simp [sraPathsOk, jpath, f1, f2, f3, f4, f5, f8, f11, f12, f13,
    f15, f16, f19, f20, f21, f22, f23, f24, f25, f27, f29, f30, f31,
    f32, f33, f34, f35]

/-- If the `parse_sra_summary` loop succeeds, then each uid of a
duplicate-free list was processed from its original record: the
sixteen-field row extraction on the two parsed trees succeeded, and
the final map holds the record with `expxml` and `runs` overwritten by
those trees. -/
theorem sraGo_mem (xp : String → Except String JsonV) (l : List String) :
    ∀ (m m2 : JsonV) rows (uid : String) (r : JsonV) (s1 s2 : String)
      (w t1 t2 : JsonV),
    sraGo xp m l = Except.ok (m2, rows) → l.Nodup → uid ∈ l →
    jget m uid = Except.ok r →
    jget r "expxml" = Except.ok (.str s1) →
    jget r "runs" = Except.ok (.str s2) →
    xp ("<root>" ++ s1 ++ "</root>") = Except.ok w →
    jget w "root" = Except.ok t1 →
    xp s2 = Except.ok t2 →
    isOk (sraRow uid t1 t2) = true ∧
      jget m2 uid = Except.ok (jset (jset r "expxml" t1) "runs" t2) := by
  induction l with
  | nil => intro m m2 rows uid r s1 s2 w t1 t2 _ _ hmem; cases hmem
  | cons a rest ih =>
    intro m m2 rows uid r s1 s2 w t1 t2 h hnd hmem h1 h2 h3 h4 h5 h6
    unfold sraGo at h
    obtain ⟨ra, e1, h⟩ := bind_ok h
    obtain ⟨xa, e2, h⟩ := bind_ok h
    obtain ⟨sa, e3, h⟩ := bind_ok h
    obtain ⟨wa, e4, h⟩ := bind_ok h
    obtain ⟨ta, e5, h⟩ := bind_ok h
    obtain ⟨ya, e6, h⟩ := bind_ok h
    obtain ⟨sb, e7, h⟩ := bind_ok h
    obtain ⟨tb, e8, h⟩ := bind_ok h
    obtain ⟨row, e9, h⟩ := bind_ok h
    obtain ⟨res, e10, h⟩ := bind_ok h
    have hm2 : m2 = res.1 := (congrArg Prod.fst (Except.ok.inj h)).symm
    rcases List.mem_cons.mp hmem with rfl | hmem2
    · rw [h1] at e1
      cases Except.ok.inj e1
      rw [h2] at e2
      cases Except.ok.inj e2
      simp only [asStr] at e3
      cases Except.ok.inj e3
      rw [h4] at e4
      cases Except.ok.inj e4
      rw [h5] at e5
      cases Except.ok.inj e5
      obtain ⟨fr, hfr⟩ := jget_ok_obj h2
      rw [hfr, jget_jset_ne fr "expxml" t1 "runs" (by decide), ← hfr, h3] at e6
      cases Except.ok.inj e6
      simp only [asStr] at e7
      cases Except.ok.inj e7
      rw [h6] at e8
      cases Except.ok.inj e8
      constructor
      · rw [e9]; rfl
      · obtain ⟨fm, hfm⟩ := jget_ok_obj h1
        have huid : uid ∉ rest := (List.nodup_cons.mp hnd).1
        have hstep := sraGo_untouched xp rest _ res.1 res.2 uid e10 huid
        rw [hm2, hstep, hfm, jget_jset_self]
    · have hna : uid ≠ a := fun he =>
        (List.nodup_cons.mp hnd).1 (he ▸ hmem2)
      obtain ⟨fm, hfm⟩ := jget_ok_obj e1
      have h1m : jget (jset m a (jset (jset ra "expxml" ta) "runs" tb)) uid
          = Except.ok r := by
        rw [hfm, jget_jset_ne fm a _ uid hna, ← hfm]
        exact h1
      have := ih _ res.1 res.2 uid r s1 s2 w t1 t2 e10
        (List.nodup_cons.mp hnd).2 hmem2 h1m h2 h3 h4 h5 h6
      exact ⟨this.1, by rw [hm2]; exact this.2⟩

/-! ## Claim theorems -/

/-- C5: for every network, namespace and search term, if the HTTP
response to the search request is non-successful, `entrez_search`
returns an empty list and raises nothing. -/
theorem C5_search_failure_returns_empty (net : Net) (db term : String)
    (h : (net.search db term).ok = false) :
    entrez_search net db term = Except.ok [] := by
  simp [entrez_search, h]

/-- Witness for C5 at a concrete failing network. -/
theorem C5_witness :
    (failNet.search GSE_DB_NAME "GSE89408").ok = false ∧
      entrez_search failNet GSE_DB_NAME "GSE89408" = Except.ok [] :=
  ⟨rfl, C5_search_failure_returns_empty failNet GSE_DB_NAME "GSE89408" rfl⟩

/-- C6: for every network, namespace and identifier list, if the HTTP
response to the batch summary request is non-successful,
`entrez_summary` returns the empty mapping. -/
theorem C6_summary_failure_returns_empty_map (net : Net) (db : String)
    (ids : List String)
    (h : (net.summary db (String.intercalate "," ids)).ok = false) :
    entrez_summary net db ids = Except.ok (JsonV.obj []) := by
  simp [entrez_summary, h]

/-- Witness for C6 at a concrete failing network. -/
theorem C6_witness :
    (failNet.summary GSE_DB_NAME (String.intercalate "," ["1", "2"])).ok = false ∧
      entrez_summary failNet GSE_DB_NAME ["1", "2"] = Except.ok (JsonV.obj []) :=
  ⟨rfl, C6_summary_failure_returns_empty_map failNet GSE_DB_NAME ["1", "2"] rfl⟩

theorem gseRows_eq_map (m : JsonV) (uids : List String)
    (hf : ∀ uid ∈ uids, ∃ r gpl supp ftp, jget m uid = Except.ok r ∧
      jget r "gpl" = Except.ok gpl ∧ jget r "suppfile" = Except.ok supp ∧
      jget r "ftplink" = Except.ok ftp) :
    gseRows m uids = Except.ok (uids.map (gseRowD m)) := by
  induction uids with
  | nil => rfl
  | cons uid rest ih =>
    obtain ⟨r, gpl, supp, ftp, h1, h2, h3, h4⟩ := hf uid (by simp)
    have hrest := ih (fun u hu => hf u (by simp [hu]))
    simp [gseRows, gseRow, gseRowD, getD, h1, h2, h3, h4, hrest]

/-- C3: for every summary map whose `uids` entry lists its identifiers
and whose per-identifier records carry the `gpl`, `suppfile` and
`ftplink` sub-fields, `parse_gse_summary` yields exactly one row per
identifier, in the order of the `uids` list, each row being exactly the
four fields uid, gpl, suppfile, ftplink. -/
theorem C3_parse_gse_rows (m u : JsonV) (uids : List String)
    (hu : jget m "uids" = Except.ok u)
    (hl : asStrList u = Except.ok uids)
    (hf : ∀ uid ∈ uids, ∃ r gpl supp ftp, jget m uid = Except.ok r ∧
      jget r "gpl" = Except.ok gpl ∧ jget r "suppfile" = Except.ok supp ∧
      jget r "ftplink" = Except.ok ftp) :
    parse_gse_summary m = Except.ok ⟨uids.map (gseRowD m)⟩ := by
  simp [parse_gse_summary, hu, hl, gseRows_eq_map m uids hf]

/-- Witness for C3 at the two-identifier map. -/
theorem C3_witness :
    parse_gse_summary mC3 = Except.ok ⟨["u1", "u2"].map (gseRowD mC3)⟩ :=
  C3_parse_gse_rows mC3 (.arr [.str "u1", .str "u2"]) ["u1", "u2"] rfl rfl
    (by
      intro uid hu
      simp only [List.mem_cons, List.not_mem_nil, or_false] at hu
      rcases hu with h | h <;> subst h <;>
        exact ⟨_, _, _, _, rfl, rfl, rfl, rfl⟩)

theorem collectExtrelations_eq_flatten (m : JsonV) (uids : List String)
    (hf : ∀ uid ∈ uids, ∃ r rels, jget m uid = Except.ok r ∧
      jget r "extrelations" = Except.ok (.arr rels)) :
    collectExtrelations m uids =
      Except.ok ((uids.map (getRelations m)).flatten) := by
  induction uids with
  | nil => rfl
  | cons uid rest ih =>
    obtain ⟨r, rels, h1, h2⟩ := hf uid (by simp)
    have hrest := ih (fun u hu => hf u (by simp [hu]))
    simp [collectExtrelations, getRelations, getD, asArr, h1, h2, hrest]

theorem srpOfRelations_eq_filter (rels : List JsonV)
    (hf : ∀ rel ∈ rels, ∃ t, jget rel "relationtype" = Except.ok t ∧
      (isSRA t = true → ∃ s, jget rel "targetobject" = Except.ok (.str s))) :
    srpOfRelations rels = Except.ok
      ((rels.filter (fun rel => isSRA (getD rel "relationtype"))).map targetOf) := by
  induction rels with
  | nil => rfl
  | cons rel rest ih =>
    obtain ⟨t, ht, hs⟩ := hf rel (by simp)
    have hrest := ih (fun x hx => hf x (by simp [hx]))
    by_cases hsra : isSRA t = true
    · obtain ⟨s, hts⟩ := hs hsra
      simp [srpOfRelations, ht, hsra, hts, hrest, targetOf, getD, asStr,
        List.filter_cons]
    · simp only [Bool.not_eq_true] at hsra
      simp [srpOfRelations, ht, hsra, hrest, getD, List.filter_cons]

/-- C2: for every primary summary map whose records are well-formed,
`find_relevant_srp` returns exactly the target-object identifiers of
the relations whose relation-type label is `'SRA'`, flattened in
identifier order and then relation order, duplicates preserved, every
other relation type excluded. -/
theorem C2_find_relevant_srp (m u : JsonV) (uids : List String)
    (hu : jget m "uids" = Except.ok u)
    (hl : asStrList u = Except.ok uids)
    (hf : ∀ uid ∈ uids, ∃ r rels, jget m uid = Except.ok r ∧
      jget r "extrelations" = Except.ok (.arr rels) ∧
      ∀ rel ∈ rels, ∃ t, jget rel "relationtype" = Except.ok t ∧
        (isSRA t = true → ∃ s, jget rel "targetobject" = Except.ok (.str s))) :
    find_relevant_srp m = Except.ok
      ((((uids.map (getRelations m)).flatten).filter
        (fun rel => isSRA (getD rel "relationtype"))).map targetOf) := by
  have h1 : collectExtrelations m uids =
      Except.ok ((uids.map (getRelations m)).flatten) :=
    collectExtrelations_eq_flatten m uids
      (fun uid hu2 => by
        obtain ⟨r, rels, ha, hb, _⟩ := hf uid hu2
        exact ⟨r, rels, ha, hb⟩)
  have h2 : ∀ rel ∈ (uids.map (getRelations m)).flatten,
      ∃ t, jget rel "relationtype" = Except.ok t ∧
        (isSRA t = true → ∃ s, jget rel "targetobject" = Except.ok (.str s)) := by
    intro rel hrel
    rw [List.mem_flatten] at hrel
    obtain ⟨l, hl2, hrl⟩ := hrel
    rw [List.mem_map] at hl2
    obtain ⟨uid, huid, hlq⟩ := hl2
    obtain ⟨r, rels, ha, hb, hc⟩ := hf uid huid
    have : getRelations m uid = rels := by
      simp [getRelations, getD, ha, hb, asArr]
    exact hc rel (by rw [← this, hlq]; exact hrl)
  simp [find_relevant_srp, hu, hl, h1,
    srpOfRelations_eq_filter _ h2]

/-- Witness for C2: the SRA-typed relation's target is kept, the other
relation is dropped. -/
theorem C2_witness :
    find_relevant_srp mC2 = Except.ok
      (((["u1"].map (getRelations mC2)).flatten.filter
        (fun rel => isSRA (getD rel "relationtype"))).map targetOf) :=
  C2_find_relevant_srp mC2 (.arr [.str "u1"]) ["u1"] rfl rfl
    (by
      intro uid hu
      simp only [List.mem_cons, List.not_mem_nil, or_false] at hu
      subst hu
      refine ⟨_, _, rfl, rfl, ?_⟩
      intro rel hrel
      simp only [List.mem_cons, List.not_mem_nil, or_false] at hrel
      rcases hrel with h | h <;> subst h
      · exact ⟨_, rfl, fun _ => ⟨_, rfl⟩⟩
      · exact ⟨_, rfl, fun h => by simp [isSRA] at h⟩)

/-- Inversion of a successful pipeline run: the intermediate calls all
succeeded, and the composite is the two fixed entries, with the rnaseq
entry appended exactly when the discovered identifier list is
non-empty. -/
theorem experiment_summary_shape (net : Net)
    (xp : String → Except String JsonV) (gid : String)
    (out : List (String × OutVal))
    (h : experiment_summary net xp gid = Except.ok out) :
    ∃ g df srps, sum_GSE net gid = Except.ok g ∧
      parse_gse_summary g = Except.ok df ∧
      find_relevant_srp g = Except.ok srps ∧
      ((srps = [] ∧
        out = [("gse_id", OutVal.s gid), ("microarray", OutVal.df df)]) ∨
       (srps ≠ [] ∧ ∃ sra_ids sra_sum res,
        entrez_search net SRA_DB_NAME (String.intercalate "+OR+" srps) =
          Except.ok sra_ids ∧
        entrez_summary net SRA_DB_NAME sra_ids = Except.ok sra_sum ∧
        parse_sra_summary xp sra_sum = Except.ok res ∧
        out = [("gse_id", OutVal.s gid), ("microarray", OutVal.df df),
          ("rnaseq", OutVal.df res.2)])) := by
  unfold experiment_summary at h
  cases hg : sum_GSE net gid with
  | error e => rw [hg] at h; simp at h
  | ok g =>
  rw [hg] at h; rw [ok_bind] at h
  cases hp : parse_gse_summary g with
  | error e => rw [hp] at h; simp at h
  | ok df =>
  rw [hp] at h; rw [ok_bind] at h
  cases hs : find_relevant_srp g with
  | error e => rw [hs] at h; simp at h
  | ok srps =>
  rw [hs] at h; rw [ok_bind] at h
  refine ⟨g, df, srps, rfl, hp, hs, ?_⟩
  rcases srps with _ | ⟨s0, srest⟩
  · left
    simp only [List.isEmpty_nil, if_true] at h
    exact ⟨rfl, (Except.ok.inj h).symm⟩
  · right
    refine ⟨by simp, ?_⟩
    simp only [List.isEmpty_cons, Bool.false_eq_true, if_false] at h
    cases hq : entrez_search net SRA_DB_NAME
        (String.intercalate "+OR+" (s0 :: srest)) with
    | error e => rw [hq] at h; simp at h
    | ok sra_ids =>
    rw [hq] at h; rw [ok_bind] at h
    cases hm : entrez_summary net SRA_DB_NAME sra_ids with
    | error e => rw [hm] at h; simp at h
    | ok sra_sum =>
    rw [hm] at h; rw [ok_bind] at h
    cases hr : parse_sra_summary xp sra_sum with
    | error e => rw [hr] at h; simp at h
    | ok res =>
    rw [hr] at h; rw [ok_bind] at h
    exact ⟨sra_ids, sra_sum, res, rfl, hm, hr,
      by simpa using (Except.ok.inj h).symm⟩

/-- C4: for every successful run, the composite result carries the
`rnaseq` key exactly when cross-reference discovery returned a
non-empty identifier list; with no SRA-typed relations the key is
absent entirely. -/
theorem C4_rnaseq_key_iff (net : Net) (xp : String → Except String JsonV)
    (gid : String) (out : List (String × OutVal)) (g : JsonV)
    (srps : List String)
    (hg : sum_GSE net gid = Except.ok g)
    (hs : find_relevant_srp g = Except.ok srps)
    (h : experiment_summary net xp gid = Except.ok out) :
    (out.lookup "rnaseq").isSome ↔ srps ≠ [] := by
  obtain ⟨g2, df, srps2, hg2, _, hs2, hcase⟩ :=
    experiment_summary_shape net xp gid out h
  rw [hg] at hg2
  cases Except.ok.inj hg2
  rw [hs] at hs2
  cases Except.ok.inj hs2
  rcases hcase with ⟨he, rfl⟩ | ⟨hne, sra_ids, sra_sum, res, _, _, _, rfl⟩
  · subst he
    simp [List.lookup]
  · simp [List.lookup, hne]

/-- Witness for C4: a run with no SRA-typed relations, whose composite
has no `rnaseq` key. -/
theorem C4_witness :
    (outOk.lookup "rnaseq").isSome ↔ ([] : List String) ≠ [] :=
  C4_rnaseq_key_iff okNet xparseNone "GSE1" outOk _ [] rfl rfl rfl

/-- C10: for every successful run, the composite maps `gse_id` to the
unmodified input identifier, contains `microarray`, and has no keys
beyond `gse_id`, `microarray` and (optionally) `rnaseq`. -/
theorem C10_composite_keys (net : Net) (xp : String → Except String JsonV)
    (gid : String) (out : List (String × OutVal))
    (h : experiment_summary net xp gid = Except.ok out) :
    out.lookup "gse_id" = some (OutVal.s gid) ∧
      (out.map Prod.fst = ["gse_id", "microarray"] ∨
       out.map Prod.fst = ["gse_id", "microarray", "rnaseq"]) := by
  obtain ⟨g, df, srps, _, _, _, hcase⟩ :=
    experiment_summary_shape net xp gid out h
  rcases hcase with ⟨_, rfl⟩ | ⟨_, sra_ids, sra_sum, res, _, _, _, rfl⟩ <;>
    simp [List.lookup]

/-- Witness for C10 at the concrete successful network. -/
theorem C10_witness :
    outOk.lookup "gse_id" = some (OutVal.s "GSE1") ∧
      (outOk.map Prod.fst = ["gse_id", "microarray"] ∨
       outOk.map Prod.fst = ["gse_id", "microarray", "rnaseq"]) :=
  C10_composite_keys okNet xparseNone "GSE1" outOk rfl

/-- C1 counterexample: with every batch-summary response failing (and
the search succeeding), the pipeline does not return empty tables — it
raises the key-lookup failure on `uids` that `parse_gse_summary` hits
on the empty mapping. -/
theorem C1_counterexample :
    experiment_summary sumFailNet xparseNone "GSE89408" =
      Except.error "KeyError: uids" := rfl

/-- C1 (amended): a transport failure of the Summarize call yields the
empty mapping, but the empty mapping does not propagate as empty
tables: `parse_gse_summary` raises a key-lookup error on the missing
`uids` entry, so `experiment_summary` raises for that identifier
instead of returning a composite result. -/
theorem C1_summarize_failure_raises (net : Net)
    (xp : String → Except String JsonV) (gid : String)
    (h : ∀ ids, (net.summary GSE_DB_NAME ids).ok = false) :
    isOk (experiment_summary net xp gid) = false := by
  unfold experiment_summary sum_GSE
  cases hs : entrez_search net GSE_DB_NAME (gid ++ "+AND+gse[ETYP]") with
  | error e => simp [hs]
  | ok ids =>
    have hsum : entrez_summary net GSE_DB_NAME ids =
        Except.ok (JsonV.obj []) := by
      simp [entrez_summary, h]
    simp [hs, hsum, parse_gse_summary, jget]

/-- Witness for the amended C1 at the concrete failing network. -/
theorem C1_witness :
    isOk (experiment_summary sumFailNet xparseNone "GSE89408") = false :=
  C1_summarize_failure_raises sumFailNet xparseNone "GSE89408" (fun _ => rfl)

theorem gseRows_ok_row (m : JsonV) (l : List String) :
    ∀ rows (uid : String), gseRows m l = Except.ok rows → uid ∈ l →
    ∃ row, gseRow m uid = Except.ok row := by
  induction l with
  | nil => intro rows uid _ hmem; cases hmem
  | cons a rest ih =>
    intro rows uid h hmem
    unfold gseRows at h
    obtain ⟨row, e1, h⟩ := bind_ok h
    obtain ⟨rows2, e2, _⟩ := bind_ok h
    rcases List.mem_cons.mp hmem with rfl | hm2
    · exact ⟨row, e1⟩
    · exact ih rows2 uid e2 hm2

/-- C7: a missing required sub-field aborts extraction instead of being
defaulted: when a record of the `uids` list lacks `gpl`, `suppfile` or
`ftplink`, `parse_gse_summary` raises; and when any of the sixteen
expected nested paths is absent in the two parsed trees of an
identifier of a duplicate-free `uids` list, `parse_sra_summary`
raises. -/
theorem C7_missing_fields_raise :
    (∀ (m u : JsonV) (uids : List String) (uid : String) (r : JsonV),
      jget m "uids" = Except.ok u → asStrList u = Except.ok uids →
      uid ∈ uids → jget m uid = Except.ok r →
      (isOk (jget r "gpl") = false ∨ isOk (jget r "suppfile") = false ∨
        isOk (jget r "ftplink") = false) →
      isOk (parse_gse_summary m) = false) ∧
    (∀ (xp : String → Except String JsonV) (m u : JsonV)
      (uids : List String) (uid : String) (r : JsonV) (s1 s2 : String)
      (w t1 t2 : JsonV),
      jget m "uids" = Except.ok u → asStrList u = Except.ok uids →
      uids.Nodup → uid ∈ uids → jget m uid = Except.ok r →
      jget r "expxml" = Except.ok (.str s1) →
      jget r "runs" = Except.ok (.str s2) →
      xp ("<root>" ++ s1 ++ "</root>") = Except.ok w →
      jget w "root" = Except.ok t1 → xp s2 = Except.ok t2 →
      sraPathsOk t1 t2 = false →
      isOk (parse_sra_summary xp m) = false) := by
  constructor
  · intro m u uids uid r hu hl hmem hr hbad
    cases hres : parse_gse_summary m with
    | error e => rfl
    | ok df =>
      exfalso
      unfold parse_gse_summary at hres
      rw [hu, ok_bind, hl, ok_bind] at hres
      obtain ⟨rows, hrows, _⟩ := bind_ok hres
      obtain ⟨row, hrow⟩ := gseRows_ok_row m uids rows uid hrows hmem
      unfold gseRow at hrow
      obtain ⟨r2, g1, hrow⟩ := bind_ok hrow
      rw [hr] at g1
      cases Except.ok.inj g1
      obtain ⟨gpl, g2, hrow⟩ := bind_ok hrow
      obtain ⟨sup, g3, hrow⟩ := bind_ok hrow
      obtain ⟨ftp, g4, _⟩ := bind_ok hrow
      rcases hbad with hb | hb | hb
      · rw [g2] at hb; simp at hb
      · rw [g3] at hb; simp at hb
      · rw [g4] at hb; simp at hb
  · intro xp m u uids uid r s1 s2 w t1 t2 hu hl hnd hmem hr h1 h2 hw
      ht1 ht2 hpaths
    cases hres : parse_sra_summary xp m with
    | error e => rfl
    | ok p =>
      exfalso
      unfold parse_sra_summary at hres
      rw [hu, ok_bind, hl, ok_bind] at hres
      obtain ⟨res, hgo, _⟩ := bind_ok hres
      have hmain := sraGo_mem xp uids m res.1 res.2 uid r s1 s2 w t1 t2
        hgo hnd hmem hr h1 h2 hw ht1 ht2
      cases hsr : sraRow uid t1 t2 with
      | error e =>
        have := hmain.1
        rw [hsr] at this
        simp at this
      | ok row =>
        rw [sraRow_ok_paths hsr] at hpaths
        cases hpaths

/-- Witness for C7: a record lacking `gpl` makes `parse_gse_summary`
raise, and empty parsed trees make `parse_sra_summary` raise. -/
theorem C7_witness :
    isOk (parse_gse_summary mC7gse) = false ∧
      isOk (parse_sra_summary xpEmpty mC7sra) = false :=
  ⟨C7_missing_fields_raise.1 mC7gse (.arr [.str "u1"]) ["u1"] "u1"
    (.obj [("suppfile", .str "S"), ("ftplink", .str "F")])
    rfl rfl (by simp) rfl (Or.inl rfl),
   C7_missing_fields_raise.2 xpEmpty mC7sra (.arr [.str "u1"]) ["u1"]
    "u1" (.obj [("expxml", .str "E"), ("runs", .str "R")]) "E" "R"
    (.obj [("root", .obj [])]) (.obj []) (.obj [])
    rfl rfl (by simp) (by simp) rfl rfl rfl rfl rfl rfl rfl⟩

/-- C9: `parse_sra_summary` mutates its input map in place — rendered
here as the returned map: for each identifier of a duplicate-free
`uids` list, the returned map holds the original record with its
`expxml` entry overwritten by the tree parsed from the wrapped original
string and its `runs` entry overwritten by the tree parsed from the
original `runs` string; the two entries now hold those parsed trees
rather than the original strings. -/
theorem C9_parse_sra_overwrites (xp : String → Except String JsonV)
    (m u : JsonV) (uids : List String) (uid : String) (r : JsonV)
    (s1 s2 : String) (w t1 t2 m2 : JsonV) (df : DataFrame)
    (hu : jget m "uids" = Except.ok u)
    (hl : asStrList u = Except.ok uids)
    (hnd : uids.Nodup) (hmem : uid ∈ uids)
    (hr : jget m uid = Except.ok r)
    (h1 : jget r "expxml" = Except.ok (.str s1))
    (h2 : jget r "runs" = Except.ok (.str s2))
    (hw : xp ("<root>" ++ s1 ++ "</root>") = Except.ok w)
    (ht1 : jget w "root" = Except.ok t1)
    (ht2 : xp s2 = Except.ok t2)
    (hok : parse_sra_summary xp m = Except.ok (m2, df)) :
    jget m2 uid = Except.ok (jset (jset r "expxml" t1) "runs" t2) ∧
      jget (jset (jset r "expxml" t1) "runs" t2) "expxml" =
        Except.ok t1 ∧
      jget (jset (jset r "expxml" t1) "runs" t2) "runs" =
        Except.ok t2 := by
  unfold parse_sra_summary at hok
  rw [hu, ok_bind, hl, ok_bind] at hok
  obtain ⟨res, hgo, hfin⟩ := bind_ok hok
  have hm2 : m2 = res.1 := (congrArg Prod.fst (Except.ok.inj hfin)).symm
  have hmain := sraGo_mem xp uids m res.1 res.2 uid r s1 s2 w t1 t2
    hgo hnd hmem hr h1 h2 hw ht1 ht2
  obtain ⟨fr, hfr⟩ := jget_ok_obj h1
  have hjs : jset (JsonV.obj fr) "expxml" t1 =
      JsonV.obj (setKey fr "expxml" t1) := rfl
  refine ⟨by rw [hm2]; exact hmain.2, ?_, ?_⟩
  · rw [hfr, hjs,
      jget_jset_ne (setKey fr "expxml" t1) "runs" t2 "expxml" (by decide)]
    simp [jget, lookup_setKey_self]
  · rw [hfr, hjs, jget_jset_self]

/-- Witness for C9: the returned map holds the parsed trees in place of
the original `expxml` and `runs` strings. -/
theorem C9_witness :
    jget mC9out "u1" = Except.ok
      (jset (jset (JsonV.obj [("expxml", JsonV.str "E"),
        ("runs", JsonV.str "R")]) "expxml" expxmlTree) "runs" runsTree) ∧
      jget (jset (jset (JsonV.obj [("expxml", JsonV.str "E"),
        ("runs", JsonV.str "R")]) "expxml" expxmlTree) "runs" runsTree)
        "expxml" = Except.ok expxmlTree ∧
      jget (jset (jset (JsonV.obj [("expxml", JsonV.str "E"),
        ("runs", JsonV.str "R")]) "expxml" expxmlTree) "runs" runsTree)
        "runs" = Except.ok runsTree :=
  C9_parse_sra_overwrites xpFull mC7sra (.arr [.str "u1"]) ["u1"] "u1"
    (.obj [("expxml", .str "E"), ("runs", .str "R")]) "E" "R"
    (.obj [("root", expxmlTree)]) expxmlTree runsTree mC9out _
    rfl rfl (by simp) (by simp) rfl rfl rfl rfl rfl rfl rfl

theorem dedupSeen_of_seen : ∀ (t seen : List String),
    (∀ c ∈ t, c ∈ seen) → dedupSeen seen t = [] := by
  intro t
  induction t with
  | nil => intro seen _; rfl
  | cons c rest ih =>
    intro seen h
    have hc : c ∈ seen := h c (by simp)
    simp only [dedupSeen, if_pos hc]
    exact ih seen (fun x hx => h x (by simp [hx]))

theorem dedupSeen_append_nodup : ∀ (k : List String), k.Nodup →
    ∀ (seen t : List String), (∀ c ∈ k, c ∉ seen) →
    (∀ c ∈ t, c ∈ k ∨ c ∈ seen) → dedupSeen seen (k ++ t) = k := by
  intro k
  induction k with
  | nil =>
    intro _ seen t _ ht
    simp only [List.nil_append]
    exact dedupSeen_of_seen t seen
      (fun c hc => (ht c hc).resolve_left (by simp))
  | cons c k2 ih =>
    intro hnd seen t hk ht
    have hcs : c ∉ seen := hk c (by simp)
    simp only [List.cons_append, dedupSeen, if_neg hcs]
    congr 1
    apply ih (List.nodup_cons.mp hnd).2 (c :: seen) t
    · intro x hx
      intro hmem
      rcases List.mem_cons.mp hmem with rfl | hxs
      · exact (List.nodup_cons.mp hnd).1 hx
      · exact hk x (List.mem_cons_of_mem c hx) hxs
    · intro x hx
      rcases ht x hx with hxk | hxs
      · rcases List.mem_cons.mp hxk with rfl | h2
        · right; simp
        · left; exact h2
      · right; exact List.mem_cons_of_mem c hxs

/-- Every row `parse_gse_summary` builds has exactly the four fields,
in order. -/
theorem gseRows_shape (m : JsonV) (l : List String) :
    ∀ rows, gseRows m l = Except.ok rows → ∀ row ∈ rows,
    ∃ uid g s f, row = [("uid", JsonV.str uid), ("gpl", g),
      ("suppfile", s), ("ftplink", f)] := by
  induction l with
  | nil =>
    intro rows h row hrow
    unfold gseRows at h
    cases Except.ok.inj h
    cases hrow
  | cons a rest ih =>
    intro rows h row hrow
    unfold gseRows at h
    obtain ⟨row0, e1, h⟩ := bind_ok h
    obtain ⟨rows2, e2, h⟩ := bind_ok h
    cases Except.ok.inj h
    rcases List.mem_cons.mp hrow with rfl | hm
    · unfold gseRow at e1
      obtain ⟨r, g1, e1⟩ := bind_ok e1
      obtain ⟨gpl, g2, e1⟩ := bind_ok e1
      obtain ⟨sup, g3, e1⟩ := bind_ok e1
      obtain ⟨ftp, g4, e1⟩ := bind_ok e1
      exact ⟨a, gpl, sup, ftp, (Except.ok.inj e1).symm⟩
    · exact ih rows2 e2 row hm

/-- The pandas columns of a non-empty table whose rows all carry
exactly the column list `cols`. -/
theorem columns_of_const (d : DataFrame) (cols : List String)
    (hnd : cols.Nodup)
    (hkeys : ∀ row ∈ d.rows, row.map Prod.fst = cols)
    (hne : d.rows ≠ []) : d.columns = cols := by
  obtain ⟨r0, rest, hr⟩ : ∃ r0 rest, d.rows = r0 :: rest := by
    cases hd : d.rows with
    | nil => exact absurd hd hne
    | cons a b => exact ⟨a, b, rfl⟩
  unfold DataFrame.columns
  rw [hr]
  simp only [List.map_cons, List.flatten_cons]
  rw [hkeys r0 (by rw [hr]; simp)]
  apply dedupSeen_append_nodup cols hnd [] _
  · intro c _
    simp
  · intro c hc
    left
    rw [List.mem_flatten] at hc
    obtain ⟨l, hl, hcl⟩ := hc
    rw [List.mem_map] at hl
    obtain ⟨row, hrow, rfl⟩ := hl
    have hk := hkeys row (by rw [hr]; exact List.mem_cons_of_mem _ hrow)
    rw [hk] at hcl
    exact hcl

/-- Looking every key of a duplicate-free row up in the row itself
yields the row's values, in order. -/
theorem lookup_proj (row : List (String × JsonV))
    (hnd : (row.map Prod.fst).Nodup) :
    (row.map Prod.fst).map (fun c =>
      match row.lookup c with
      | some v => Cell.val v
      | none => Cell.nan) = row.map (fun q => Cell.val q.2) := by
  induction row with
  | nil => rfl
  | cons p rest ih =>
    obtain ⟨k, v⟩ := p
    simp only [List.map_cons] at hnd ⊢
    have hk : k ∉ rest.map Prod.fst := (List.nodup_cons.mp hnd).1
    have hstep : ∀ c ∈ rest.map Prod.fst,
        List.lookup c ((k, v) :: rest) = List.lookup c rest := by
      intro c hc
      have hne : c ≠ k := fun he => hk (he ▸ hc)
      simp [List.lookup, beq_eq_false_iff_ne.mpr hne]
    congr 1
    · simp [List.lookup]
    · calc (rest.map Prod.fst).map (fun c =>
            match List.lookup c ((k, v) :: rest) with
            | some w => Cell.val w
            | none => Cell.nan)
          = (rest.map Prod.fst).map (fun c =>
            match List.lookup c rest with
            | some w => Cell.val w
            | none => Cell.nan) :=
            List.map_congr_left (fun c hc => by rw [hstep c hc])
        _ = rest.map (fun q => Cell.val q.2) :=
            ih (List.nodup_cons.mp hnd).2

/-- The CSV pandas writes for any table whose rows all carry exactly
the duplicate-free column list `cols`, the empty table included. -/
theorem to_csv_of_const (d : DataFrame) (cols : List String)
    (hnd : cols.Nodup)
    (hkeys : ∀ row ∈ d.rows, row.map Prod.fst = cols) :
    to_csv d = csvSpec cols d := by
  by_cases he : d.rows = []
  · unfold to_csv csvSpec DataFrame.columns
    rw [he]
    rfl
  · have hff : d.rows.isEmpty = false := by
      cases hd : d.rows with
      | nil => exact absurd hd he
      | cons a b => rfl
    have hcols := columns_of_const d cols hnd hkeys he
    unfold to_csv csvSpec
    dsimp only
    rw [hcols, hff]
    simp only [Bool.false_eq_true, if_false]
    congr 1
    apply List.map_congr_left
    intro p hp
    have hrow : p.2 ∈ d.rows := by
      have := List.mem_map_of_mem Prod.snd hp
      rwa [List.enum_map_snd] at this
    have hk := hkeys p.2 hrow
    congr 1
    rw [← hk]
    exact lookup_proj p.2 (by rw [hk]; exact hnd)

/-- A successful sixteen-field row extraction yields a row whose keys
are exactly the seventeen sequencing columns, in order. -/
theorem sraRow_keys {uid : String} {t1 t2 : JsonV}
    {row : List (String × JsonV)}
    (h : sraRow uid t1 t2 = Except.ok row) :
    row.map Prod.fst = sraCols := by
  unfold sraRow at h
  obtain ⟨a1, _, h⟩ := bind_ok h
  obtain ⟨a2, _, h⟩ := bind_ok h
  obtain ⟨a3, _, h⟩ := bind_ok h
  obtain ⟨a4, _, h⟩ := bind_ok h
  obtain ⟨a5, _, h⟩ := bind_ok h
  obtain ⟨a6, _, h⟩ := bind_ok h
  obtain ⟨a7, _, h⟩ := bind_ok h
  obtain ⟨a8, _, h⟩ := bind_ok h
  obtain ⟨a9, _, h⟩ := bind_ok h
  obtain ⟨a10, _, h⟩ := bind_ok h
  obtain ⟨a11, _, h⟩ := bind_ok h
  obtain ⟨a12, _, h⟩ := bind_ok h
  obtain ⟨a13, _, h⟩ := bind_ok h
  obtain ⟨a14, _, h⟩ := bind_ok h
  obtain ⟨a15, _, h⟩ := bind_ok h
  obtain ⟨a16, _, h⟩ := bind_ok h
  obtain ⟨a17, _, h⟩ := bind_ok h
  obtain ⟨a18, _, h⟩ := bind_ok h
  obtain ⟨a19, _, h⟩ := bind_ok h
  obtain ⟨a20, _, h⟩ := bind_ok h
  obtain ⟨a21, _, h⟩ := bind_ok h
  obtain ⟨a22, _, h⟩ := bind_ok h
  obtain ⟨a23, _, h⟩ := bind_ok h
  obtain ⟨a24, _, h⟩ := bind_ok h
  obtain ⟨a25, _, h⟩ := bind_ok h
  obtain ⟨a26, _, h⟩ := bind_ok h
  obtain ⟨a27, _, h⟩ := bind_ok h
  obtain ⟨a28, _, h⟩ := bind_ok h
  obtain ⟨a29, _, h⟩ := bind_ok h
  obtain ⟨a30, _, h⟩ := bind_ok h
  obtain ⟨a31, _, h⟩ := bind_ok h
  obtain ⟨a32, _, h⟩ := bind_ok h
  obtain ⟨a33, _, h⟩ := bind_ok h
  obtain ⟨a34, _, h⟩ := bind_ok h
  obtain ⟨a35, _, h⟩ := bind_ok h
  cases Except.ok.inj h
  rfl

/-- Every row of the table `parse_sra_summary` builds carries exactly
the seventeen sequencing columns. -/
theorem sraGo_keys (xp : String → Except String JsonV)
    (l : List String) : ∀ (m m2 : JsonV) rows,
    sraGo xp m l = Except.ok (m2, rows) → ∀ row ∈ rows,
    row.map Prod.fst = sraCols := by
  induction l with
  | nil =>
    intro m m2 rows h row hrow
    unfold sraGo at h
    cases Except.ok.inj h
    cases hrow
  | cons a rest ih =>
    intro m m2 rows h row hrow
    unfold sraGo at h
    obtain ⟨r, e1, h⟩ := bind_ok h
    obtain ⟨xa, e2, h⟩ := bind_ok h
    obtain ⟨sa, e3, h⟩ := bind_ok h
    obtain ⟨wa, e4, h⟩ := bind_ok h
    obtain ⟨ta, e5, h⟩ := bind_ok h
    obtain ⟨ya, e6, h⟩ := bind_ok h
    obtain ⟨sb, e7, h⟩ := bind_ok h
    obtain ⟨tb, e8, h⟩ := bind_ok h
    obtain ⟨row0, e9, h⟩ := bind_ok h
    obtain ⟨res, e10, h⟩ := bind_ok h
    cases Except.ok.inj h
    rcases List.mem_cons.mp hrow with rfl | hm
    · exact sraRow_keys e9
    · exact ih _ res.1 res.2 e10 row hm

/-- Every row of the table `parse_gse_summary` builds carries exactly
the four primary columns. -/
theorem parse_gse_rows_keys (m : JsonV) (d : DataFrame)
    (hp : parse_gse_summary m = Except.ok d) :
    ∀ row ∈ d.rows, row.map Prod.fst = gseCols := by
  unfold parse_gse_summary at hp
  obtain ⟨u, hu, hp⟩ := bind_ok hp
  obtain ⟨uids, hl, hp⟩ := bind_ok hp
  obtain ⟨rows, hrows, hfin⟩ := bind_ok hp
  have hd : d = ⟨rows⟩ := (Except.ok.inj hfin).symm
  subst hd
  intro row hrow
  obtain ⟨uid, g, s, f, hr⟩ := gseRows_shape m uids rows hrows row hrow
  rw [hr]; rfl

/-- Every row of the table `parse_sra_summary` returns carries exactly
the seventeen sequencing columns. -/
theorem parse_sra_rows_keys (xp : String → Except String JsonV)
    (sra_sum : JsonV) (res : JsonV × DataFrame)
    (h : parse_sra_summary xp sra_sum = Except.ok res) :
    ∀ row ∈ res.2.rows, row.map Prod.fst = sraCols := by
  unfold parse_sra_summary at h
  obtain ⟨u, hu, h⟩ := bind_ok h
  obtain ⟨uids, hl, h⟩ := bind_ok h
  obtain ⟨r2, hgo, hfin⟩ := bind_ok h
  have hres2 : res.2 = ⟨r2.2⟩ :=
    (congrArg Prod.snd (Except.ok.inj hfin)).symm
  intro row hrow
  rw [hres2] at hrow
  exact sraGo_keys xp uids sra_sum r2.1 r2.2 hgo row hrow

/-- C8 counterexample: the CSV written for a one-record composite does
not consist of exactly the enumerated columns — pandas' default
`to_csv` prepends the unnamed index column, so the header row has five
cells, one more than the four enumerated columns. -/
theorem C8_counterexample :
    save_to_csv esC8 = Except.ok
      [("results/microarray/G1_experiment_summary.csv",
        [[Cell.blank, Cell.val (.str "uid"), Cell.val (.str "gpl"),
          Cell.val (.str "suppfile"), Cell.val (.str "ftplink")],
         [Cell.nat 0, Cell.val (.str "1"), Cell.val (.str "G"),
          Cell.val (.str "S"), Cell.val (.str "F")]])] ∧
      [Cell.blank, Cell.val (JsonV.str "uid"), Cell.val (.str "gpl"),
        Cell.val (.str "suppfile"), Cell.val (.str "ftplink")].length =
        gseCols.length + 1 :=
  ⟨rfl, rfl⟩

/-- C8 (amended): for every composite a successful run produces, the
files written per experiment identifier are the primary CSV and, when
the sequencing table is present, the sequencing CSV; each contains one
row per extracted record after a header row, and its data columns are
exactly those enumerated in the data model (uid, gpl, suppfile,
ftplink for the primary table; uid plus the sixteen sequencing fields
for the sequencing table) preceded by one additional column — the
unnamed integer row index pandas' default `to_csv` writes; an empty
table is written as the bare index header with no data columns and no
rows. -/
theorem C8_csv_shape (net : Net) (xp : String → Except String JsonV)
    (gid : String) (out : List (String × OutVal))
    (h : experiment_summary net xp gid = Except.ok out) :
    save_to_csv out = Except.ok
      ((MICROARRAY_PATH gid, csvSpec gseCols (dfAt out "microarray")) ::
        (if (out.lookup "rnaseq").isSome then
          [(RNASEQ_PATH gid, csvSpec sraCols (dfAt out "rnaseq"))]
        else [])) := by
  obtain ⟨g, df, srps, hg, hp, hs, hcase⟩ :=
    experiment_summary_shape net xp gid out h
  rcases hcase with ⟨he, rfl⟩ |
    ⟨hne, sra_ids, sra_sum, res, hq, hm, hr, rfl⟩
  · have h1 : to_csv df = csvSpec gseCols df :=
      to_csv_of_const df gseCols (by decide) (parse_gse_rows_keys g df hp)
    have h0 : save_to_csv [("gse_id", OutVal.s gid),
        ("microarray", OutVal.df df)] =
      Except.ok [(MICROARRAY_PATH gid, to_csv df)] := rfl
    rw [h0, h1]
    rfl
  · have h1 : to_csv df = csvSpec gseCols df :=
      to_csv_of_const df gseCols (by decide) (parse_gse_rows_keys g df hp)
    have h2 : to_csv res.2 = csvSpec sraCols res.2 :=
      to_csv_of_const res.2 sraCols (by decide)
        (parse_sra_rows_keys xp sra_sum res hr)
    have h0 : save_to_csv [("gse_id", OutVal.s gid),
        ("microarray", OutVal.df df), ("rnaseq", OutVal.df res.2)] =
      Except.ok [(MICROARRAY_PATH gid, to_csv df),
        (RNASEQ_PATH gid, to_csv res.2)] := rfl
    rw [h0, h1, h2]
    rfl

/-- Witness for the amended C8: a run with one SRA relation writes both
the primary CSV and the sequencing CSV in the amended shape. -/
theorem C8_witness :
    save_to_csv outSra = Except.ok
      ((MICROARRAY_PATH "GSE1",
        csvSpec gseCols (dfAt outSra "microarray")) ::
        (if (outSra.lookup "rnaseq").isSome then
          [(RNASEQ_PATH "GSE1", csvSpec sraCols (dfAt outSra "rnaseq"))]
        else [])) :=
  C8_csv_shape sraNet xpFull "GSE1" outSra rfl

end ExperimentSummary
